import Mathlib

/-!
Verification of the voice-session core of the travel-navigation app.

Two components are embedded shallowly:
* `VoiceSessionService` — session records and the transcript validation gate
  (`src/lib/services/VoiceSessionService.ts`);
* `DeepgramVoiceAgent` — the streaming-connection event handler and the
  bounded connect retry loop.

JavaScript strings are modelled as Lean `String`; the impure read of the
clock (`Date.now()`) inside the validation function is passed in explicitly
as a `now : Int` argument; a nullable string is `Option String`.
-/

namespace VoiceSessionService

/-- The character class matched by the JavaScript regex escape `\s`
(ECMAScript WhiteSpace and LineTerminator code points). -/
def jsWhitespace (c : Char) : Bool :=
  c == '\t' || c == '\n' || c == Char.ofNat 0x0b || c == Char.ofNat 0x0c ||
  c == '\r' || c == ' ' || c == Char.ofNat 0xa0 || c == Char.ofNat 0x1680 ||
  (0x2000 ≤ c.toNat && c.toNat ≤ 0x200a) ||
  c == Char.ofNat 0x2028 || c == Char.ofNat 0x2029 || c == Char.ofNat 0x202f ||
  c == Char.ofNat 0x205f || c == Char.ofNat 0x3000 || c == Char.ofNat 0xfeff

/-- JavaScript `String.prototype.trim`: strip leading and trailing
whitespace characters. -/
def jsTrim (s : String) : String :=
  ⟨((s.data.dropWhile jsWhitespace).reverse.dropWhile jsWhitespace).reverse⟩

/-- JavaScript `String.prototype.length`: the number of UTF-16 code units
(code points above U+FFFF count twice). -/
def jsLength (s : String) : Nat :=
  (s.data.map (fun c => if c.toNat ≥ 0x10000 then 2 else 1)).sum

/-- The ASCII character class `[a-zA-Z0-9]`. -/
def asciiAlnum (c : Char) : Bool :=
  ('a' ≤ c && c ≤ 'z') || ('A' ≤ c && c ≤ 'Z') || ('0' ≤ c && c ≤ '9')

/-- The test performed by the regex `^[^a-zA-Z0-9\s]+$`: the whole string is
a nonempty run of characters that are neither ASCII alphanumeric nor
whitespace. -/
def onlySpecial (s : String) : Bool :=
  !s.data.isEmpty && s.data.all (fun c => !asciiAlnum c && !jsWhitespace c)

/-- The `status` field of a `VoiceSession`. -/
inductive SessionStatus where
  | idle
  | recording
  | processing
  | completed
  | error
deriving DecidableEq

/-- The `VoiceSession` interface. The `timestamp` field is the creation
time in milliseconds (the spec calls it `createdAt`). -/
structure VoiceSession where
  sessionId : String
  recordingId : String
  timestamp : Int
  status : SessionStatus
  transcript : Option String
  audioUri : Option String
  isValidated : Bool
deriving DecidableEq

/-- The result shape of `validateTranscript`: a valid flag together with an
optional error message. -/
structure ValidationOutcome where
  valid : Bool
  error : Option String
deriving DecidableEq

/-- `MAX_SESSION_AGE`: five minutes in milliseconds. -/
def MAX_SESSION_AGE : Int := 5 * 60 * 1000

/-- `validateTranscript` from `src/lib/services/VoiceSessionService.ts`.
A `null` transcript is `none`; the JavaScript falsiness test `!transcript`
on a string is true exactly for `null`/`undefined` and the empty string. -/
def validateTranscript (transcript : Option String) (sessionId : String)
    (currentSession : Option VoiceSession) (now : Int) : ValidationOutcome :=
  match transcript with
  | none => ⟨false, some "Transcript is empty or invalid"⟩
  | some t =>
    if t = "" then ⟨false, some "Transcript is empty or invalid"⟩
    else
      let trimmed := jsTrim t
      if jsLength trimmed = 0 then
        ⟨false, some "Transcript is empty after trimming"⟩
      else if jsLength trimmed > 500 then
        ⟨false, some "Transcript exceeds maximum length"⟩
      else
        match currentSession with
        | none => ⟨false, some "No active session"⟩
        | some cs =>
          if cs.sessionId ≠ sessionId then
            ⟨false, some "Transcript does not match current session"⟩
          else if now - cs.timestamp > MAX_SESSION_AGE then
            ⟨false, some "Session has expired"⟩
          else if onlySpecial trimmed then
            ⟨false, some "Transcript contains only special characters"⟩
          else ⟨true, none⟩

/-- `updateSessionWithTranscript`: run the validation gate and, on success,
return a copy of the session stamped with the trimmed transcript. -/
def updateSessionWithTranscript (session : VoiceSession) (transcript : String)
    (sessionId : String) (now : Int) : Option VoiceSession :=
  let validation := validateTranscript (some transcript) sessionId (some session) now
  if validation.valid then
    some { session with
           transcript := some (jsTrim transcript),
           isValidated := true,
           status := .completed }
  else none

/-- `clearSession`: resets the current session reference to null. -/
def clearSession : Option VoiceSession := none

/-- The spec's discriminated validation errors (§4.1). -/
inductive ValidationError where
  | EmptyTranscript
  | TooLong
  | NoActiveSession
  | SessionMismatch
  | SessionExpired
  | SuspiciousContent
deriving DecidableEq

/-- Map a concrete error message produced by `validateTranscript` to the
spec's error kind. -/
def errKindOfMsg (m : String) : Option ValidationError :=
  if m = "Transcript is empty or invalid" then some .EmptyTranscript
  else if m = "Transcript is empty after trimming" then some .EmptyTranscript
  else if m = "Transcript exceeds maximum length" then some .TooLong
  else if m = "No active session" then some .NoActiveSession
  else if m = "Transcript does not match current session" then some .SessionMismatch
  else if m = "Session has expired" then some .SessionExpired
  else if m = "Transcript contains only special characters" then some .SuspiciousContent
  else none

/-- The spec-level view of a validation outcome: `none` on success, the
error kind of the first failing rule otherwise. -/
def errKind (o : ValidationOutcome) : Option ValidationError :=
  o.error.bind errKindOfMsg

/-- Modelled from the spec's wording of §4.1: the six validation rules
applied in order, first failure wins. Rule 1: non-null and trimmed
non-empty; rule 2: trimmed length at most 500; rule 3: a current session
exists; rule 4: the candidate session id equals the current session's id;
rule 5: session age at most five minutes; rule 6: the trimmed text is not
entirely special characters. -/
def specValidate (text : Option String) (sid : String)
    (cs : Option VoiceSession) (now : Int) : Option ValidationError :=
  match text with
  | none => some .EmptyTranscript
  | some t =>
    if jsLength (jsTrim t) = 0 then some .EmptyTranscript
    else if jsLength (jsTrim t) > 500 then some .TooLong
    else
      match cs with
      | none => some .NoActiveSession
      | some s =>
        if sid ≠ s.sessionId then some .SessionMismatch
        else if now - s.timestamp > MAX_SESSION_AGE then some .SessionExpired
        else if onlySpecial (jsTrim t) then some .SuspiciousContent
        else none

end VoiceSessionService

namespace DeepgramVoiceAgent

/-- The `readyState` values of a WebSocket. -/
inductive WsReadyState where
  | CONNECTING
  | OPEN
  | CLOSING
  | CLOSED
deriving DecidableEq

/-- The mutable fields of `DeepgramVoiceAgentService` relevant to inbound
event handling, together with the socket's ready state. -/
structure AgentState where
  isConnected : Bool
  readyState : WsReadyState
  settingsApplied : Bool
  audioQueue : Nat
deriving DecidableEq

/-- Parsed inbound JSON messages (the tagged union of message types
handled by `handleMessage`; an unrecognized `type` is `unknown`). The
`input` of a function call request is kept abstract as a string. -/
inductive InboundMessage where
  | welcome
  | settingsAppliedMsg
  | conversationText (role : String) (content : String)
  | functionCallRequest (functionName : String) (input : String)
      (functionCallId : String)
  | agentStartedSpeaking
  | agentAudioDone
  | userStartedSpeaking
  | errorMessage (message : String)
  | unknown (msgType : String)
deriving DecidableEq

/-- Transport events delivered to the service, in arrival order: the
socket's open and close signals and message events (binary frames carry
only their byte length in the model). -/
inductive WsEvent where
  | onOpen
  | onClose
  | onMessageText (m : InboundMessage)
  | onMessageBinary (byteLength : Nat)
deriving DecidableEq

/-- Outbound payloads written to the socket: the one-time settings message
and the function-call acknowledgment carrying the call id and a success
flag in its output. -/
inductive OutboundPayload where
  | settings
  | functionCallResponse (functionCallId : String) (success : Bool)
deriving DecidableEq

/-- Observable actions of the service: callback invocations and socket
writes. -/
inductive OutboundAction where
  | cbConnected
  | cbDisconnected
  | cbSettingsApplied
  | cbTranscript (content : String) (role : String)
  | cbFunctionCall (functionName : String) (input : String) (callId : String)
  | cbAgentSpeaking (speaking : Bool)
  | cbAudioReceived (byteLength : Nat)
  | cbError (message : String)
  | wsSend (payload : OutboundPayload)
deriving DecidableEq

/-- `send`: writes to the socket only when its ready state is OPEN,
otherwise logs a warning and drops the payload. -/
def send (st : AgentState) (p : OutboundPayload) : List OutboundAction :=
  if st.readyState = .OPEN then [.wsSend p] else []

/-- `sendFunctionCallResponse`: builds the acknowledgment for a call id
and hands it to `send`. -/
def sendFunctionCallResponse (st : AgentState) (callId : String)
    (success : Bool) : List OutboundAction :=
  send st (.functionCallResponse callId success)

/-- `handleMessage` on a parsed text frame: dispatch on the message type.
A `FunctionCallRequest` invokes the function-call callback and then sends
exactly one acknowledgment with the same call id and success output,
without consulting `isConnected`. -/
def handleMessage (st : AgentState) (m : InboundMessage) :
    AgentState × List OutboundAction :=
  match m with
  | .welcome => (st, [])
  | .settingsAppliedMsg => ({ st with settingsApplied := true }, [.cbSettingsApplied])
  | .conversationText role content => (st, [.cbTranscript content role])
  | .functionCallRequest fname input callId =>
      (st, .cbFunctionCall fname input callId ::
            sendFunctionCallResponse st callId true)
  | .agentStartedSpeaking => (st, [.cbAgentSpeaking true])
  | .agentAudioDone => (st, [.cbAgentSpeaking false])
  | .userStartedSpeaking => (st, [])
  | .errorMessage msg => (st, [.cbError msg])
  | .unknown _ => (st, [])

/-- One step of the service's event loop: the `onopen`, `onclose`,
and `onmessage` handlers of `initWebSocket`. The browser marks the socket
OPEN before `onopen` fires and CLOSED before `onclose` fires. -/
def step (st : AgentState) (ev : WsEvent) :
    AgentState × List OutboundAction :=
  match ev with
  | .onOpen =>
      let st' := { st with isConnected := true, settingsApplied := false,
                           readyState := .OPEN }
      (st', send st' .settings ++ [.cbConnected])
  | .onClose =>
      ({ st with isConnected := false, readyState := .CLOSED },
       [.cbDisconnected])
  | .onMessageBinary n =>
      ({ st with audioQueue := st.audioQueue + 1 }, [.cbAudioReceived n])
  | .onMessageText m => handleMessage st m

/-- Process a list of transport events in order, concatenating the
observable actions. -/
def run (st : AgentState) (evs : List WsEvent) :
    AgentState × List OutboundAction :=
  match evs with
  | [] => (st, [])
  | e :: rest =>
      let s1 := step st e
      let s2 := run s1.1 rest
      (s2.1, s1.2 ++ s2.2)

/-- The service state right after `initWebSocket` creates the socket. -/
def initialState : AgentState :=
  { isConnected := false, readyState := .CONNECTING,
    settingsApplied := false, audioQueue := 0 }

/-- Is an action the socket write of a function-call acknowledgment for
the given call id? -/
def isAckFor (callId : String) : OutboundAction → Bool
  | .wsSend (.functionCallResponse cid _) => cid == callId
  | _ => false

/-- `maxReconnectAttempts` of `DeepgramVoiceAgentService`. -/
def maxReconnectAttempts : Nat := 3

/-- The observable trace of `connectWithRetry`: how many times
`initWebSocket` was attempted, the backoff delays slept between attempts
in order, and whether a connection was eventually established (`false`
means the last error was rethrown to the caller). -/
structure RetryTrace where
  attempts : Nat
  delays : List Nat
  success : Bool
deriving DecidableEq

/-- `connectWithRetry`: attempt `initWebSocket`; on failure, if the
attempt index is below `maxReconnectAttempts`, sleep `2 ^ attempt * 1000`
milliseconds and recurse at `attempt + 1`, otherwise rethrow. The outcome
of each attempt is abstracted as `outcomes : Nat → Bool`. -/
def connectWithRetry (outcomes : Nat → Bool) (attempt : Nat) : RetryTrace :=
  if outcomes attempt then
    { attempts := 1, delays := [], success := true }
  else if _h : attempt < maxReconnectAttempts then
    let backoff := 2 ^ attempt * 1000
    let rest := connectWithRetry outcomes (attempt + 1)
    { attempts := rest.attempts + 1, delays := backoff :: rest.delays,
      success := rest.success }
  else
    { attempts := 1, delays := [], success := false }
termination_by maxReconnectAttempts - attempt
decreasing_by simp_wf; omega

end DeepgramVoiceAgent

namespace VoiceSessionService

/-- A concrete session used to instantiate universally quantified
statements. -/
def sessionB : VoiceSession :=
  { sessionId := "session-b", recordingId := "recording-b", timestamp := 0,
    status := .recording, transcript := none, audioUri := none,
    isValidated := false }

theorem validate_agrees_with_spec (text : Option String) (sid : String)
    (cs : Option VoiceSession) (now : Int) :
    errKind (validateTranscript text sid cs now) = specValidate text sid cs now
    ∧ (validateTranscript text sid cs now).valid
        = (specValidate text sid cs now).isNone := by
  cases text with
  | none => exact ⟨rfl, rfl⟩
  | some t =>
    by_cases h0 : t = ""
    · subst h0; exact ⟨rfl, rfl⟩
    · unfold validateTranscript specValidate
      dsimp only
      rw [if_neg h0]
      cases cs with
      | none =>
        dsimp only
        split_ifs <;> exact ⟨by decide, by decide⟩
      | some s =>
        dsimp only
        have hsw : (sid ≠ s.sessionId) ↔ (s.sessionId ≠ sid) := ne_comm
        simp only [hsw]
        split_ifs <;> exact ⟨by decide, by decide⟩

/-- C2: `validateTranscript` applies the spec's six validation rules in the
spec's exact order with first failure winning — its outcome always agrees
with the rule cascade `specValidate` modelled from the spec, and in
particular an empty text with a null current session yields the
empty-transcript error, not the no-active-session error. -/
theorem validateTranscript_rule_order (text : Option String) (sid : String)
    (cs : Option VoiceSession) (now : Int) :
    (errKind (validateTranscript text sid cs now) = specValidate text sid cs now
      ∧ (validateTranscript text sid cs now).valid
          = (specValidate text sid cs now).isNone)
    ∧ validateTranscript (some "") sid none now
        = ⟨false, some "Transcript is empty or invalid"⟩ :=
  ⟨validate_agrees_with_spec text sid cs now, rfl⟩

/-- C1 as stated is false: a candidate tagged with a session id different
from the current session's is rejected, but not necessarily with the
session-mismatch error — an empty candidate with a mismatched id is
rejected by the earlier empty-transcript rule. -/
theorem isolation_error_counterexample :
    "session-a" ≠ sessionB.sessionId
    ∧ (validateTranscript (some "") "session-a" (some sessionB) 0).error
        = some "Transcript is empty or invalid"
    ∧ (validateTranscript (some "") "session-a" (some sessionB) 0).error
        ≠ some "Transcript does not match current session" :=
  ⟨by decide, rfl, by decide⟩

/-- C1 (amended): for every current session B and every candidate tagged
with a session id different from B's, `validateTranscript` rejects the
candidate (with the session-mismatch error whenever the earlier
text-shape rules pass), and `updateSessionWithTranscript` returns null,
so the candidate can never set `transcript` or `isValidated` on B. -/
theorem session_isolation (B : VoiceSession) (t sid : String) (now : Int)
    (h : sid ≠ B.sessionId) :
    (validateTranscript (some t) sid (some B) now).valid = false
    ∧ (validateTranscript none sid (some B) now).valid = false
    ∧ updateSessionWithTranscript B t sid now = none
    ∧ (t ≠ "" → jsLength (jsTrim t) ≠ 0 → jsLength (jsTrim t) ≤ 500 →
        (validateTranscript (some t) sid (some B) now).error
          = some "Transcript does not match current session") := by
  have hv : (validateTranscript (some t) sid (some B) now).valid = false := by
    unfold validateTranscript
    dsimp only
    split_ifs with h1 h2 h3 h4 h5 h6 <;> try rfl
    exact absurd (not_not.mp h4).symm h
  refine ⟨hv, rfl, ?_, ?_⟩
  · simp [updateSessionWithTranscript, hv]
  · intro ht1 ht2 ht3
    unfold validateTranscript
    dsimp only
    rw [if_neg ht1, if_neg ht2, if_neg (by omega),
        if_pos (fun he => h he.symm)]

/-- Witness for C1 (amended) at a concrete mismatched candidate. -/
theorem session_isolation_witness :
    "session-a" ≠ sessionB.sessionId
    ∧ updateSessionWithTranscript sessionB "hello" "session-a" 0 = none :=
  ⟨by decide, (session_isolation sessionB "hello" "session-a" 0 (by decide)).2.2.1⟩

/-- C3: with every rule other than expiry satisfied, validation succeeds
exactly when the session age `now - createdAt` is at most five minutes
(300000 ms), and any older session fails with the session-expired error. -/
theorem expiry_boundary (t sid : String) (B : VoiceSession) (now : Int)
    (h1 : t ≠ "") (h2 : jsLength (jsTrim t) ≠ 0)
    (h3 : jsLength (jsTrim t) ≤ 500) (h4 : B.sessionId = sid)
    (h5 : onlySpecial (jsTrim t) = false) :
    ((validateTranscript (some t) sid (some B) now).valid = true
        ↔ now - B.timestamp ≤ MAX_SESSION_AGE)
    ∧ (now - B.timestamp > MAX_SESSION_AGE →
        (validateTranscript (some t) sid (some B) now).error
          = some "Session has expired") := by
  unfold validateTranscript
  dsimp only
  rw [if_neg h1, if_neg h2, if_neg (by omega), if_neg (by simp [h4]),
      if_neg (show ¬ onlySpecial (jsTrim t) = true by simp [h5])]
  split_ifs with he
  · exact ⟨by simp; omega, fun _ => rfl⟩
  · exact ⟨by simp; omega, fun hc => absurd hc he⟩

/-- Witness for C3 at the boundary: one millisecond before the deadline
validates, one millisecond past it fails with the session-expired error
(the session was created at time 0). -/
theorem expiry_boundary_witness :
    (validateTranscript (some "hello") "session-b" (some sessionB) 299999).valid
      = true
    ∧ (validateTranscript (some "hello") "session-b" (some sessionB) 300001).error
      = some "Session has expired" := by
  constructor
  · exact (expiry_boundary "hello" "session-b" sessionB 299999 (by decide)
      (by decide) (by decide) (by decide) (by decide)).1.mpr (by decide)
  · exact (expiry_boundary "hello" "session-b" sessionB 300001 (by decide)
      (by decide) (by decide) (by decide) (by decide)).2 (by decide)

/-- C4: on successful validation `updateSessionWithTranscript` returns the
session stamped with the trimmed candidate text, `isValidated = true` and
status completed; on any validation failure it returns null. -/
theorem update_stamps_trimmed (session : VoiceSession) (t sid : String)
    (now : Int) :
    ((validateTranscript (some t) sid (some session) now).valid = true →
        updateSessionWithTranscript session t sid now
          = some { session with
                    transcript := some (jsTrim t),
                    isValidated := true,
                    status := .completed })
    ∧ ((validateTranscript (some t) sid (some session) now).valid = false →
        updateSessionWithTranscript session t sid now = none) := by
  constructor
  · intro h; simp [updateSessionWithTranscript, h]
  · intro h; simp [updateSessionWithTranscript, h]

/-- Witness for C4: a concrete candidate with surrounding whitespace is
stamped trimmed. -/
theorem update_stamps_trimmed_witness :
    (validateTranscript (some " hello ") "session-b" (some sessionB) 0).valid
      = true
    ∧ updateSessionWithTranscript sessionB " hello " "session-b" 0
        = some { sessionB with
                  transcript := some "hello",
                  isValidated := true,
                  status := .completed } := by
  have h := (update_stamps_trimmed sessionB " hello " "session-b" 0).1 (by decide)
  exact ⟨by decide, h.trans (by decide)⟩

/-- C8: `validateTranscript` is a pure function of its explicit inputs;
its only dependence on the clock is through the expiry comparison — two
calls at times on the same side of the expiry boundary return identical
results. -/
theorem validate_deterministic (t : Option String) (sid : String)
    (s : Option VoiceSession) (now now2 : Int)
    (h : ∀ cs, s = some cs →
        ((now - cs.timestamp > MAX_SESSION_AGE)
          ↔ (now2 - cs.timestamp > MAX_SESSION_AGE))) :
    validateTranscript t sid s now = validateTranscript t sid s now2 := by
  cases s with
  | none => cases t <;> rfl
  | some cs =>
    have hiff := h cs rfl
    cases t with
    | none => rfl
    | some tt =>
      unfold validateTranscript
      dsimp only
      simp only [hiff]

/-- Witness for C8: two different clock readings on the same side of the
boundary give the same outcome. -/
theorem validate_deterministic_witness :
    validateTranscript (some "hello") "session-b" (some sessionB) 1000
      = validateTranscript (some "hello") "session-b" (some sessionB) 2000 :=
  validate_deterministic (some "hello") "session-b" (some sessionB) 1000 2000
    (by intro cs hcs; injection hcs with h2; subst h2; decide)

/-- C9: `updateSessionWithTranscript` is non-mutating and atomic — on
validation failure it returns null (the input record is untouched; the
embedding is functional because the source builds a fresh object by
spread), and on success the returned session agrees with the input on
every field except `transcript`, `isValidated` and `status`. -/
theorem update_frame (session : VoiceSession) (t sid : String) (now : Int) :
    ((validateTranscript (some t) sid (some session) now).valid = false →
        updateSessionWithTranscript session t sid now = none)
    ∧ (∀ s2, updateSessionWithTranscript session t sid now = some s2 →
        s2.sessionId = session.sessionId
        ∧ s2.recordingId = session.recordingId
        ∧ s2.timestamp = session.timestamp
        ∧ s2.audioUri = session.audioUri
        ∧ s2.transcript = some (jsTrim t)
        ∧ s2.isValidated = true
        ∧ s2.status = .completed) := by
  constructor
  · intro h; simp [updateSessionWithTranscript, h]
  · intro s2 h
    unfold updateSessionWithTranscript at h
    dsimp only at h
    split_ifs at h with hv
    injection h with h2
    subst h2
    exact ⟨rfl, rfl, rfl, rfl, rfl, rfl, rfl⟩

/-- Witness for C9: the concrete successful update preserves the frame
fields of the input session. -/
theorem update_frame_witness :
    updateSessionWithTranscript sessionB "hello" "session-b" 0
      = some { sessionB with
                transcript := some "hello",
                isValidated := true,
                status := .completed }
    ∧ ({ sessionB with
          transcript := some "hello",
          isValidated := true,
          status := .completed } : VoiceSession).sessionId
        = sessionB.sessionId := by
  have h := (update_frame sessionB "hello" "session-b" 0).2
    { sessionB with
      transcript := some "hello",
      isValidated := true,
      status := .completed } (by decide)
  exact ⟨by decide, h.1⟩

/-- C10: the suspicious-content rule is ASCII-only — any trimmed,
non-empty candidate of at most 500 characters all of whose characters are
outside `[a-zA-Z0-9]` and are not whitespace is rejected with the
special-characters error against an otherwise-valid session, even when
the characters are alphanumeric in Unicode terms. -/
theorem suspicious_ascii_only (t sid : String) (B : VoiceSession) (now : Int)
    (h1 : t ≠ "") (h2 : jsLength (jsTrim t) ≠ 0)
    (h3 : jsLength (jsTrim t) ≤ 500) (h4 : B.sessionId = sid)
    (h5 : now - B.timestamp ≤ MAX_SESSION_AGE)
    (h6 : ∀ c ∈ (jsTrim t).data, asciiAlnum c = false ∧ jsWhitespace c = false) :
    validateTranscript (some t) sid (some B) now
      = ⟨false, some "Transcript contains only special characters"⟩ := by
  have hne : (jsTrim t).data ≠ [] := by
    intro hd
    exact h2 (by simp [jsLength, hd])
  have hsp : onlySpecial (jsTrim t) = true := by
    unfold onlySpecial
    rw [Bool.and_eq_true]
    constructor
    · cases hdata : (jsTrim t).data with
      | nil => exact absurd hdata hne
      | cons a as => simp [hdata]
    · rw [List.all_eq_true]
      intro c hc
      rcases h6 c hc with ⟨ha, hw⟩
      simp [ha, hw]
  unfold validateTranscript
  dsimp only
  rw [if_neg h1, if_neg h2, if_neg (by omega), if_neg (by simp [h4]),
      if_neg (by omega), if_pos hsp]

/-- Witness for C10: a text of non-ASCII letters is rejected as
suspicious even though its characters are Unicode-alphanumeric. -/
theorem suspicious_ascii_only_witness :
    validateTranscript (some "éé") "session-b" (some sessionB) 0
      = ⟨false, some "Transcript contains only special characters"⟩ :=
  suspicious_ascii_only "éé" "session-b" sessionB 0 (by decide) (by decide)
    (by decide) (by decide) (by decide) (by decide)

end VoiceSessionService

namespace DeepgramVoiceAgent

/-- C5 as stated is false: after the service processes an open followed by
a close (so it has reported disconnected and `isConnected` is false), a
FunctionCallRequest is not discarded — `handleMessage` performs no
connection-validity check and still invokes the function-call callback. -/
theorem functionCall_after_disconnect_counterexample :
    (run initialState [.onOpen, .onClose]).1.isConnected = false
    ∧ OutboundAction.cbFunctionCall "start_navigation" "Central Station" "call-1"
        ∈ (run initialState
            [.onOpen, .onClose,
             .onMessageText (.functionCallRequest "start_navigation"
               "Central Station" "call-1")]).2 := by
  decide

/-- C5 (amended): a FunctionCall event processed after a Disconnected
event is not discarded — the function-call callback is always invoked,
with no connection-validity check before dispatch; only the outgoing
acknowledgment is suppressed, because `send` checks the socket's ready
state. -/
theorem functionCall_dispatch_unchecked (st : AgentState)
    (fname input callId : String) :
    OutboundAction.cbFunctionCall fname input callId
      ∈ (step st (.onMessageText
          (.functionCallRequest fname input callId))).2
    ∧ (st.readyState ≠ .OPEN →
        (step st (.onMessageText
            (.functionCallRequest fname input callId))).2
          = [.cbFunctionCall fname input callId]) := by
  constructor
  · simp [step, handleMessage]
  · intro h
    simp [step, handleMessage, sendFunctionCallResponse, send, h]

/-- Witness for C5 (amended) on a closed socket. -/
theorem functionCall_dispatch_unchecked_witness :
    (step { isConnected := false, readyState := .CLOSED,
            settingsApplied := false, audioQueue := 0 }
        (.onMessageText (.functionCallRequest "start_navigation" "x"
          "call-1"))).2
      = [.cbFunctionCall "start_navigation" "x" "call-1"] :=
  (functionCall_dispatch_unchecked _ "start_navigation" "x" "call-1").2
    (by decide)

/-- C6: processing an inbound FunctionCallRequest on an open connection
emits exactly one FunctionCallResponse acknowledgment, carrying the same
function_call_id; the outputs do not depend on any result of the
function-call callback, so the acknowledgment is sent regardless of
whether the application accepted the extracted destination. -/
theorem functionCall_single_ack (st : AgentState)
    (fname input callId : String) (h : st.readyState = .OPEN) :
    (step st (.onMessageText (.functionCallRequest fname input callId))).2
      = [.cbFunctionCall fname input callId,
         .wsSend (.functionCallResponse callId true)]
    ∧ ((step st (.onMessageText
          (.functionCallRequest fname input callId))).2.countP
        (isAckFor callId)) = 1 := by
  have he : (step st (.onMessageText
      (.functionCallRequest fname input callId))).2
      = [.cbFunctionCall fname input callId,
         .wsSend (.functionCallResponse callId true)] := by
    simp [step, handleMessage, sendFunctionCallResponse, send, h]
  refine ⟨he, ?_⟩
  rw [he]
  simp [List.countP_cons, List.countP_nil, isAckFor]

/-- Witness for C6 on a concrete open connection. -/
theorem functionCall_single_ack_witness :
    (step { isConnected := true, readyState := .OPEN,
            settingsApplied := true, audioQueue := 0 }
        (.onMessageText (.functionCallRequest "start_navigation"
          "Central Station" "call-1"))).2
      = [.cbFunctionCall "start_navigation" "Central Station" "call-1",
         .wsSend (.functionCallResponse "call-1" true)] :=
  (functionCall_single_ack _ "start_navigation" "Central Station" "call-1"
    (by decide)).1

theorem connectWithRetry_succ (outcomes : Nat → Bool) (a : Nat)
    (h : outcomes a = true) :
    connectWithRetry outcomes a
      = { attempts := 1, delays := [], success := true } := by
  rw [connectWithRetry.eq_def]; simp [h]

theorem connectWithRetry_retry (outcomes : Nat → Bool) (a : Nat)
    (hf : outcomes a = false) (ha : a < maxReconnectAttempts) :
    connectWithRetry outcomes a
      = { attempts := (connectWithRetry outcomes (a + 1)).attempts + 1,
          delays := 2 ^ a * 1000 :: (connectWithRetry outcomes (a + 1)).delays,
          success := (connectWithRetry outcomes (a + 1)).success } := by
  rw [connectWithRetry.eq_def]; simp [hf, ha]

theorem connectWithRetry_stop (outcomes : Nat → Bool) (a : Nat)
    (hf : outcomes a = false) (ha : ¬ a < maxReconnectAttempts) :
    connectWithRetry outcomes a
      = { attempts := 1, delays := [], success := false } := by
  rw [connectWithRetry.eq_def]; simp [hf, ha]

/-- C7: the connect retry loop always terminates after at most 4 total
attempts, the backoff delays slept are an initial segment of 1s, 2s, 4s,
and when every attempt fails the loop makes exactly 4 attempts, sleeps
exactly 1s, 2s, 4s, and surfaces the failure to the caller instead of
retrying further. -/
theorem connect_retry_bounded (outcomes : Nat → Bool) :
    (connectWithRetry outcomes 0).attempts ≤ 4
    ∧ (∃ k ≤ 3, (connectWithRetry outcomes 0).delays
        = List.take k [1000, 2000, 4000])
    ∧ ((∀ i, i ≤ 3 → outcomes i = false) →
        connectWithRetry outcomes 0
          = { attempts := 4, delays := [1000, 2000, 4000],
              success := false }) := by
  cases h0 : outcomes 0 with
  | true =>
    rw [connectWithRetry_succ outcomes 0 h0]
    exact ⟨by decide, ⟨0, by decide, rfl⟩,
      fun hall => absurd (hall 0 (by decide)) (by simp [h0])⟩
  | false =>
    cases h1 : outcomes 1 with
    | true =>
      have ht : connectWithRetry outcomes 0
          = { attempts := 2, delays := [1000], success := true } := by
        simp [connectWithRetry_retry, connectWithRetry_succ, h0, h1,
          maxReconnectAttempts]
      rw [ht]
      exact ⟨by decide, ⟨1, by decide, by decide⟩,
        fun hall => absurd (hall 1 (by decide)) (by simp [h1])⟩
    | false =>
      cases h2 : outcomes 2 with
      | true =>
        have ht : connectWithRetry outcomes 0
            = { attempts := 3, delays := [1000, 2000], success := true } := by
          simp [connectWithRetry_retry, connectWithRetry_succ, h0, h1, h2,
            maxReconnectAttempts]
        rw [ht]
        exact ⟨by decide, ⟨2, by decide, by decide⟩,
          fun hall => absurd (hall 2 (by decide)) (by simp [h2])⟩
      | false =>
        cases h3 : outcomes 3 with
        | true =>
          have ht : connectWithRetry outcomes 0
              = { attempts := 4, delays := [1000, 2000, 4000],
                  success := true } := by
            simp [connectWithRetry_retry, connectWithRetry_succ, h0, h1, h2,
              h3, maxReconnectAttempts]
          rw [ht]
          exact ⟨by decide, ⟨3, by decide, by decide⟩,
            fun hall => absurd (hall 3 (by decide)) (by simp [h3])⟩
        | false =>
          have ht : connectWithRetry outcomes 0
              = { attempts := 4, delays := [1000, 2000, 4000],
                  success := false } := by
            simp [connectWithRetry_retry, connectWithRetry_stop, h0, h1, h2,
              h3, maxReconnectAttempts]
          rw [ht]
          exact ⟨by decide, ⟨3, by decide, by decide⟩, fun _ => rfl⟩

/-- Witness for C7: when every attempt fails, exactly 4 attempts are made
with delays 1s, 2s, 4s and the failure is surfaced. -/
theorem connect_retry_bounded_witness :
    connectWithRetry (fun _ => false) 0
      = { attempts := 4, delays := [1000, 2000, 4000], success := false } :=
  (connect_retry_bounded (fun _ => false)).2.2 (fun _ _ => rfl)

end DeepgramVoiceAgent
